import Mathlib

/-!
Shallow embedding of the restaurant-reservation chatbot (src/app).

The per-session conversation state is a Python dictionary (`GraphState` in
state.py); we model it as a record whose outer `Option` marks whether the key
is present in the dictionary, and whose inner `Option` (for keys that Python
code assigns `None` to) marks the Python `None` value.  Bracket access
`state[k]` raises `KeyError` on a missing key; we model it with `Except`.

Every external model call (moderation, contradiction, intent routing, fuzzy
date parsing, slot selection, party size, factual QA) is represented by a
per-turn oracle outcome: either a schema-validated structured value or a
transport/parse failure (`Call.fail`), which in the Python source is an
exception caught by the surrounding try/except.

The graph wiring follows get_compiled_graph in graph.py: entry point
check_guardrails, a conditional edge to route_intent or final_response
depending on the truthiness of error_message, then route_logic dispatching
to the handler node matching the classified intent, then final_response.
-/

namespace ChatbotSpec

/-- Python exceptions that can escape a node: KeyError from a bracket access
on a missing state key, IndexError from indexing into an empty list. -/
inductive PyErr where
  | keyError : String → PyErr
  | indexError : PyErr
deriving DecidableEq

/-- Outcome of one external model call: a schema-validated structured value,
or a transport/parse failure (an exception raised in the calling code). -/
inductive Call (α : Type) where
  | ok : α → Call α
  | fail : Call α
deriving DecidableEq

/-- Structured output of the moderation call (guardrails.py GuardrailOutput). -/
structure GuardrailOutput where
  is_safe : Bool
  reason : String
deriving DecidableEq

/-- Structured output of the contradiction call (guardrails.py ContradictionOutput). -/
structure ContradictionOutput where
  is_contradictory : Bool
  corrected_statement : String
deriving DecidableEq

/-- Structured output of the intent routing call (llm.py IntentRouterOutput). -/
structure IntentRouterOutput where
  intent : String
deriving DecidableEq

/-- Structured output of the fuzzy time call (llm.py FuzzyTimeParserOutput). -/
structure FuzzyTimeParserOutput where
  date_candidates : List String
deriving DecidableEq

/-- Structured output of the disambiguation selector call.  The class
SlotSelectionOutput is imported from llm.py by graph.py; its single field is
read as result.selected_value (graph.py line 300), matching the §6 contract
output = structured selected string. -/
structure SlotSelectionOutput where
  selected_value : String
deriving DecidableEq

/-- Structured output of the party-size call.  The class PartySizeOutput is
imported from llm.py by graph.py; its single field is read as
result.party_size (graph.py line 337), matching the §6 contract
output = structured integer. -/
structure PartySizeOutput where
  party_size : Int
deriving DecidableEq

/-- The outcomes of all external calls a single turn may issue. -/
structure TurnCalls where
  moderation : Call GuardrailOutput
  contradiction : Call ContradictionOutput
  intentCall : Call IntentRouterOutput
  fuzzyTime : Call FuzzyTimeParserOutput
  slotSelection : Call SlotSelectionOutput
  partySize : Call PartySizeOutput
  qa : Call String
deriving DecidableEq

/-- The session state dictionary (state.py GraphState).  Outer `Option`:
whether the key is present in the dictionary.  Inner `Option` on intent,
date, party_size and last_question: the Python `None` value, which the
source assigns to those keys.  user_id is never read by any node and is
omitted. -/
structure GraphState where
  message : Option String := none
  response : Option String := none
  intent : Option (Option String) := none
  booking_state : Option String := none
  date_candidates : Option (List String) := none
  date : Option (Option String) := none
  party_size : Option (Option Int) := none
  last_question : Option (Option String) := none
  error_message : Option String := none
deriving DecidableEq

/-- A brand-new session: the checkpoint store has no state for the key.
main.py builds an initial_state dictionary with booking_state and
date_candidates, but never passes it to the graph, so on first contact
every key is absent. -/
def freshSession : GraphState := {}

/-- Python bracket access `state[key]`: KeyError when the key is absent. -/
def getReq {α : Type} (key : String) : Option α → Except PyErr α
  | some v => Except.ok v
  | none => Except.error (PyErr.keyError key)

/-- Python truthiness of `state.get(k)` for a string-valued key: absent and
the empty string are falsy, any other string is truthy. -/
def truthyGet : Option String → Bool
  | none => false
  | some v => !(v == "")

/-- Python truthiness of an optional int value (`if size`): None and 0 are
falsy. -/
def pyTruthyInt : Option Int → Bool
  | none => false
  | some n => !(n == 0)

/-- Python truthiness of an optional string value (`if date`): None and the
empty string are falsy. -/
def pyTruthyStr : Option String → Bool
  | none => false
  | some v => !(v == "")

/-- Python str() of an optional string, as interpolated by an f-string:
None prints as the text None. -/
def pyShow : Option String → String
  | none => "None"
  | some v => v

/-- Python str() of an optional int, as interpolated by an f-string. -/
def pyShowInt : Option Int → String
  | none => "None"
  | some n => toString n

/-- Word characters per the regex escape for word boundaries, restricted to
the ASCII range exercised by the keyword list. -/
def isWordChar (c : Char) : Bool :=
  c.isAlphanum || c == '_'

/-- Whether the keyword occurs at the head of s with a word boundary at its
end (the boundary at its start is checked by the caller). -/
def matchesAt (kw : List Char) (s : List Char) : Bool :=
  kw.isPrefixOf s &&
    (match s.drop kw.length with
     | [] => true
     | d :: _ => !(isWordChar d))

/-- Scan for a whole-word occurrence of kw in s; prevIsWord tracks whether
the previous character was a word character (start of string counts as a
boundary). -/
def wordSearch (kw : List Char) (prevIsWord : Bool) (s : List Char) : Bool :=
  match s with
  | [] => false
  | c :: rest =>
    ((!prevIsWord) && matchesAt kw (c :: rest)) || wordSearch kw (isWordChar c) rest

/-- Whole-word search of a keyword in an already lowercased character list,
modelling re.search with word boundaries around the escaped keyword. -/
def hasWholeWord (kw : String) (msgLower : List Char) : Bool :=
  wordSearch kw.toList false msgLower

/-- guardrails.py PROFANITY_KEYWORDS. -/
def PROFANITY_KEYWORDS : List String := ["idiot", "stupid"]

/-- The deterministic keyword check of check_all_guardrails: each keyword is
searched as a whole word in the lowercased message. -/
def checkProfanityKeywords (message : String) : Bool :=
  PROFANITY_KEYWORDS.any fun kw => hasWholeWord kw (message.toList.map Char.toLower)

/-- The canned block message returned by both profanity branches. -/
def RESPECT_MESSAGE : String := "Let\x27s keep our conversation respectful, please."

/-- Stage 3 of check_all_guardrails: the LLM contradiction check.  A flagged
contradiction returns the corrected statement; a call failure is caught and
the message is allowed through. -/
def contradictionStage (contra : Call ContradictionOutput) : Option String :=
  match contra with
  | Call.ok c => if c.is_contradictory then some c.corrected_statement else none
  | Call.fail => none

/-- guardrails.py check_all_guardrails: deterministic keyword check, then
the LLM safety check (a call failure is caught and the message proceeds),
then the LLM contradiction check. -/
def check_all_guardrails (message : String)
    (moderation : Call GuardrailOutput) (contra : Call ContradictionOutput) :
    Option String :=
  if checkProfanityKeywords message then
    some RESPECT_MESSAGE
  else
    match moderation with
    | Call.ok g =>
      if g.is_safe == false then some RESPECT_MESSAGE
      else contradictionStage contra
    | Call.fail => contradictionStage contra

/-- graph.py check_guardrails_node: runs the gate on state[message]; a
truthy result is stored as both response and error_message (the falsy empty
string is not stored, mirroring `if error_msg:`). -/
def check_guardrails_node (calls : TurnCalls) (s : GraphState) :
    Except PyErr GraphState := do
  let msg ← getReq "message" s.message
  match check_all_guardrails msg calls.moderation calls.contradiction with
  | none => Except.ok s
  | some e =>
    if e == "" then Except.ok s
    else Except.ok { s with response := some e, error_message := some e }

/-- graph.py route_intent_node: stores the classified intent; on a call
failure the label defaults to unknown. -/
def route_intent_node (calls : TurnCalls) (s : GraphState) :
    Except PyErr GraphState := do
  let _msg ← getReq "message" s.message
  match calls.intentCall with
  | Call.ok r => Except.ok { s with intent := some (some r.intent) }
  | Call.fail => Except.ok { s with intent := some (some "unknown") }

/-- The factual answer: the QA call result, or the canned apology on a call
failure. -/
def qaFact : Call String → String
  | Call.ok answer => answer
  | Call.fail => "I\x27m sorry, I\x27m having trouble looking that up right now."

/-- graph.py handle_knowledge_node: answers the factual question; when the
booking state (read with a default of idle) is mid-flow, the stored
last_question is re-appended after the answer; intent is cleared to None;
no booking field is touched. -/
def handle_knowledge_node (calls : TurnCalls) (s : GraphState) :
    Except PyErr GraphState :=
  let fact := qaFact calls.qa
  let bookingState := s.booking_state.getD "idle"
  let lastQ := s.last_question.getD (some "")
  if bookingState = "idle" ∨ bookingState = "complete" then
    Except.ok { s with response := some fact, intent := some none }
  else
    Except.ok { s with
      response := some (fact ++ " Now, back to your reservation... " ++ pyShow lastQ),
      intent := some none }

/-- The either/or option list: join of all but the last candidate, then
", or" and the last candidate; IndexError on an empty list (Python
candidates[-1]). -/
def clarifyOptions : List String → Except PyErr String
  | [] => Except.error PyErr.indexError
  | a :: t =>
    Except.ok (String.intercalate ", " ((a :: t).dropLast) ++ ", or " ++ (a :: t).getLastD "")

/-- The option list on a list known to be nonempty (total form, equal to
clarifyOptions there). -/
def clarifyOptionsD (cs : List String) : String :=
  String.intercalate ", " cs.dropLast ++ ", or " ++ cs.getLastD ""

/-- graph.py handle_booking_node: runs the fuzzy time parser and branches on
the number of resolved candidates; a call failure is caught and answered
with a canned re-ask that leaves the state untouched. -/
def handle_booking_node (calls : TurnCalls) (s : GraphState) :
    Except PyErr GraphState := do
  let _msg ← getReq "message" s.message
  match calls.fuzzyTime with
  | Call.fail =>
    Except.ok { s with
      response := some "I\x27m sorry, I had trouble understanding that time. Could you rephrase?" }
  | Call.ok r =>
    match r.date_candidates with
    | [] =>
      let resp := "What day would you like to book for?"
      Except.ok { s with booking_state := some "awaiting_date",
                         response := some resp, last_question := some (some resp) }
    | [d] =>
      let resp := "Great. How many people will be in your party on " ++ d ++ "?"
      Except.ok { s with date := some (some d),
                         booking_state := some "awaiting_party_size",
                         response := some resp, last_question := some (some resp) }
    | c1 :: c2 :: rest =>
      let cs := c1 :: c2 :: rest
      let resp := "Sure-just to confirm, do you mean " ++ clarifyOptionsD cs ++ "?"
      Except.ok { s with date_candidates := some cs,
                         booking_state := some "awaiting_clarification",
                         response := some resp, last_question := some (some resp) }

/-- graph.py handle_date_node: re-uses the fuzzy parser and takes the first
candidate if any; otherwise re-asks; a call failure is caught and answered
with a canned re-ask. -/
def handle_date_node (calls : TurnCalls) (s : GraphState) :
    Except PyErr GraphState := do
  let _msg ← getReq "message" s.message
  match calls.fuzzyTime with
  | Call.fail =>
    Except.ok { s with
      response := some "I\x27m sorry, I had trouble understanding that. What day?" }
  | Call.ok r =>
    match r.date_candidates with
    | [] =>
      let resp := "I\x27m sorry, I still didn\x27t get that. What day would you like to book for?"
      Except.ok { s with response := some resp, last_question := some (some resp) }
    | d :: _ =>
      let resp := "Great. How many people will be in your party on " ++ d ++ "?"
      Except.ok { s with date := some (some d),
                         booking_state := some "awaiting_party_size",
                         response := some resp, last_question := some (some resp) }

/-- graph.py handle_clarification_node: reads state[date_candidates] with
bracket access, calls the slot selector and validates the selected value
against the candidate list; a value outside the list raises ValueError into
the same except branch as a call failure, whose re-prompt computes
candidates[-1] and therefore raises IndexError when the stored list is
empty. -/
def handle_clarification_node (calls : TurnCalls) (s : GraphState) :
    Except PyErr GraphState := do
  let _msg ← getReq "message" s.message
  let cs ← getReq "date_candidates" s.date_candidates
  match calls.slotSelection with
  | Call.ok r =>
    if r.selected_value ∈ cs then
      let resp := "Great. How many people will be in your party on " ++ r.selected_value ++ "?"
      Except.ok { s with date := some (some r.selected_value),
                         date_candidates := some ([] : List String),
                         booking_state := some "awaiting_party_size",
                         response := some resp, last_question := some (some resp) }
    else do
      let options ← clarifyOptions cs
      Except.ok { s with
        response := some ("Sorry, I didn\x27t catch that. Do you mean " ++ options ++ "?") }
  | Call.fail => do
    let options ← clarifyOptions cs
    Except.ok { s with
      response := some ("Sorry, I didn\x27t catch that. Do you mean " ++ options ++ "?") }

/-- graph.py handle_party_size_node: on a valid extracted size the node
first writes party_size and booking_state, then reads state[date] with
bracket access; the KeyError a missing date key raises is caught by the
surrounding except, which overlays the canned re-ask on the already mutated
dictionary.  An invalid size or a call failure goes to the same except
branch on the unmutated state. -/
def handle_party_size_node (calls : TurnCalls) (s : GraphState) :
    Except PyErr GraphState := do
  let _msg ← getReq "message" s.message
  let failState : GraphState → GraphState := fun s1 =>
    { s1 with response := some "I\x27m sorry, I didn\x27t catch that. How many people?",
              last_question := some (some "How many people?") }
  match calls.partySize with
  | Call.fail => Except.ok (failState s)
  | Call.ok r =>
    if r.party_size > 0 then
      let s1 := { s with party_size := some (some r.party_size),
                         booking_state := some "complete" }
      match s1.date with
      | none => Except.ok (failState s1)
      | some dateVal =>
        let resp := "Perfect. Reservation for " ++ toString r.party_size ++ " on "
          ++ pyShow dateVal ++ ". Anything else you\x27d like?"
        Except.ok { s1 with response := some resp,
                            last_question := some (some "Anything else you\x27d like?") }
    else Except.ok (failState s)

/-- graph.py handle_confirm_node: reads state[party_size] and state[date]
with bracket access (KeyError on a missing key, uncaught); when both values
are truthy it emits the confirmation and resets the booking, otherwise it
emits the generic recovery message; both branches reset booking_state to
idle and clear last_question. -/
def handle_confirm_node (s : GraphState) : Except PyErr GraphState := do
  let size ← getReq "party_size" s.party_size
  let dateVal ← getReq "date" s.date
  if pyTruthyInt size && pyTruthyStr dateVal then
    Except.ok { s with
      booking_state := some "idle", date := some none, party_size := some none,
      response := some ("Your table for " ++ pyShowInt size ++ " on " ++ pyShow dateVal
        ++ " is confirmed. We\x27ll see you then!"),
      last_question := some none }
  else
    Except.ok { s with
      booking_state := some "idle",
      response := some "I\x27m sorry, something went wrong. Let\x27s start over. How can I help?",
      last_question := some none }

/-- The canned reply of handle_unknown_node. -/
def UNKNOWN_MESSAGE : String := "I\x27m sorry, I don\x27t understand. Can you rephrase?"

/-- graph.py handle_unknown_node: sets the canned reply and touches nothing
else (in particular last_question keeps its previous value). -/
def handle_unknown_node (s : GraphState) : Except PyErr GraphState :=
  Except.ok { s with response := some UNKNOWN_MESSAGE }

/-- graph.py route_logic: maps the stored intent label to the handler node
name; anything unmatched (including the Python None a knowledge turn leaves
behind) goes to handle_unknown. -/
def route_logic (s : GraphState) : Except PyErr String := do
  let intentVal ← getReq "intent" s.intent
  Except.ok (match intentVal with
    | some "ask_fact" => "handle_knowledge"
    | some "book_reservation" => "handle_booking"
    | some "answer_date" => "handle_date"
    | some "answer_clarification" => "handle_clarification"
    | some "answer_party_size" => "handle_party_size"
    | some "confirm_booking" => "handle_confirm"
    | _ => "handle_unknown")

/-- Dispatch of the conditional edge out of route_intent to the handler
nodes, following the edge map of get_compiled_graph. -/
def dispatch (target : String) (calls : TurnCalls) (s : GraphState) :
    Except PyErr GraphState :=
  if target = "handle_knowledge" then handle_knowledge_node calls s
  else if target = "handle_booking" then handle_booking_node calls s
  else if target = "handle_date" then handle_date_node calls s
  else if target = "handle_clarification" then handle_clarification_node calls s
  else if target = "handle_party_size" then handle_party_size_node calls s
  else if target = "handle_confirm" then handle_confirm_node s
  else handle_unknown_node s

instance {ε α : Type} [DecidableEq ε] [DecidableEq α] : DecidableEq (Except ε α) :=
  fun x y =>
    match x, y with
    | Except.ok a, Except.ok b =>
      if h : a = b then isTrue (h ▸ rfl) else isFalse fun hh => h (Except.ok.inj hh)
    | Except.error e, Except.error f =>
      if h : e = f then isTrue (h ▸ rfl) else isFalse fun hh => h (Except.error.inj hh)
    | Except.ok _, Except.error _ => isFalse fun hh => Except.noConfusion hh
    | Except.error _, Except.ok _ => isFalse fun hh => Except.noConfusion hh

/-- What one turn did: whether the intent classifier node ran, which handler
node ran (none when the turn exited through the guardrail edge or failed
earlier), and the final outcome. -/
structure TurnReport where
  ranIntent : Bool
  handler : Option String
  result : Except PyErr GraphState
deriving DecidableEq

/-- One turn of the chat endpoint: the per-turn update writes only the new
message (main.py passes current_input = the message alone; the constructed
initial_state is never used); then the graph runs from the guardrail gate,
takes the conditional edge on the truthiness of error_message, classifies
the intent and dispatches to the matching handler. -/
def runTurn (calls : TurnCalls) (s0 : GraphState) (msg : String) : TurnReport :=
  let s1 := { s0 with message := some msg }
  match check_guardrails_node calls s1 with
  | Except.error e => ⟨false, none, Except.error e⟩
  | Except.ok s2 =>
    if truthyGet s2.error_message then ⟨false, none, Except.ok s2⟩
    else
      match route_intent_node calls s2 with
      | Except.error e => ⟨true, none, Except.error e⟩
      | Except.ok s3 =>
        match route_logic s3 with
        | Except.error e => ⟨true, none, Except.error e⟩
        | Except.ok target => ⟨true, some target, dispatch target calls s3⟩

/-- A sequence of turns against one session key, chaining the persisted
state; a turn whose graph invocation raises ends the run (the exception
surfaces as a 500 and no later state exists to persist). -/
def runTurns : List (String × TurnCalls) → GraphState → List TurnReport
  | [], _ => []
  | (msg, calls) :: rest, s =>
    let r := runTurn calls s msg
    match r.result with
    | Except.ok s2 => r :: runTurns rest s2
    | Except.error _ => [r]

/-! ## Helper lemmas -/

theorem bind_ok_eq {e a b : Type} (x : a) (f : a → Except e b) :
    (do let y ← (Except.ok x : Except e a); f y) = f x := rfl

theorem bind_error_eq {e a b : Type} (err : e) (f : a → Except e b) :
    (do let y ← (Except.error err : Except e a); f y) = Except.error err := rfl

theorem clarifyOptions_ok (cs : List String) (h : cs ≠ []) :
    clarifyOptions cs = Except.ok (clarifyOptionsD cs) := by
  cases cs with
  | nil => exact absurd rfl h
  | cons a t => simp [clarifyOptions, clarifyOptionsD]

/-! ## Claims -/

/-- Claim C1: on a disambiguation turn in awaiting_clarification, a selector
value outside the stored candidate list (or a selector call failure) is not
accepted: booking_state, date_candidates and date are untouched and the
response re-lists the same candidates; a value inside the list is stored as
the resolved date, the candidate list is cleared and the state moves to
awaiting_party_size. -/
theorem C1_clarification_validates_selector (calls : TurnCalls) (s : GraphState)
    (m : String) (cs : List String)
    (hm : s.message = some m) (hcs : s.date_candidates = some cs) (hne : cs ≠ [])
    (_hbs : s.booking_state = some "awaiting_clarification") :
    (∀ v, calls.slotSelection = Call.ok ⟨v⟩ → v ∉ cs →
      handle_clarification_node calls s = Except.ok { s with
        response := some ("Sorry, I didn\x27t catch that. Do you mean "
          ++ clarifyOptionsD cs ++ "?") }) ∧
    (calls.slotSelection = Call.fail →
      handle_clarification_node calls s = Except.ok { s with
        response := some ("Sorry, I didn\x27t catch that. Do you mean "
          ++ clarifyOptionsD cs ++ "?") }) ∧
    (∀ v, calls.slotSelection = Call.ok ⟨v⟩ → v ∈ cs →
      handle_clarification_node calls s = Except.ok { s with
        date := some (some v), date_candidates := some [],
        booking_state := some "awaiting_party_size",
        response := some ("Great. How many people will be in your party on " ++ v ++ "?"),
        last_question := some (some ("Great. How many people will be in your party on "
          ++ v ++ "?")) }) := by
  refine ⟨?_, ?_, ?_⟩
  · intro v hsel hv
    simp [handle_clarification_node, getReq, hm, hcs, hsel, hv, clarifyOptions_ok cs hne, bind_ok_eq]
  · intro hsel
    simp [handle_clarification_node, getReq, hm, hcs, hsel, clarifyOptions_ok cs hne, bind_ok_eq]
  · intro v hsel hv
    simp [handle_clarification_node, getReq, hm, hcs, hsel, hv, bind_ok_eq]

def c1Calls : TurnCalls :=
  { moderation := Call.fail, contradiction := Call.fail,
    intentCall := Call.ok ⟨"answer_clarification"⟩, fuzzyTime := Call.fail,
    slotSelection := Call.ok ⟨"sunday"⟩, partySize := Call.fail, qa := Call.fail }

def c1State : GraphState :=
  { freshSession with
    message := some "sunday works",
    booking_state := some "awaiting_clarification",
    date_candidates := some ["saturday", "sunday"] }

theorem C1_clarification_validates_selector_witness :
    handle_clarification_node c1Calls c1State = Except.ok { c1State with
      date := some (some "sunday"), date_candidates := some [],
      booking_state := some "awaiting_party_size",
      response := some ("Great. How many people will be in your party on "
        ++ "sunday" ++ "?"),
      last_question := some (some ("Great. How many people will be in your party on "
        ++ "sunday" ++ "?")) } :=
  (C1_clarification_validates_selector c1Calls c1State "sunday works"
    ["saturday", "sunday"] rfl rfl (by decide) rfl).2.2 "sunday" rfl (by decide)

/-- Claim C2 (counterexample input): a fresh session whose party_size key
was never written, handling a turn classified confirm_booking. -/
def c2Calls : TurnCalls :=
  { moderation := Call.fail, contradiction := Call.fail,
    intentCall := Call.ok ⟨"confirm_booking"⟩, fuzzyTime := Call.fail,
    slotSelection := Call.fail, partySize := Call.fail, qa := Call.fail }

/-- Claim C2 is false as stated: on a session where the party-size slot was
never written at all, the confirm_booking turn does not emit the generic
recovery message and reset to idle; handle_confirm_node reads
state[party_size] with bracket access and the turn ends in KeyError (no
recovery response, no state reset), which nothing catches because the
try/except around the graph invocation in main.py is commented out. -/
theorem C2_confirm_missing_slot_raises :
    (runTurn c2Calls freshSession "please confirm my booking").result =
      Except.error (PyErr.keyError "party_size") := by decide

/-- Claim C2 (amended): when both slot keys are present in the session
dictionary, a confirm_booking turn with both values truthy emits the
confirmation string, resets booking_state to idle and clears both slots to
None; with either value unset (None) or falsy it emits the generic recovery
message and still resets booking_state to idle (leaving the slot values in
place); but when a slot key was never written at all, the turn raises
KeyError on that key instead of taking the recovery path. -/
theorem C2_confirm_amended (s : GraphState) :
    (∀ sz dv, s.party_size = some sz → s.date = some dv →
      (pyTruthyInt sz && pyTruthyStr dv) = true →
      handle_confirm_node s = Except.ok { s with
        booking_state := some "idle", date := some none, party_size := some none,
        response := some ("Your table for " ++ pyShowInt sz ++ " on " ++ pyShow dv
          ++ " is confirmed. We\x27ll see you then!"),
        last_question := some none }) ∧
    (∀ sz dv, s.party_size = some sz → s.date = some dv →
      (pyTruthyInt sz && pyTruthyStr dv) = false →
      handle_confirm_node s = Except.ok { s with
        booking_state := some "idle",
        response := some "I\x27m sorry, something went wrong. Let\x27s start over. How can I help?",
        last_question := some none }) ∧
    (s.party_size = none →
      handle_confirm_node s = Except.error (PyErr.keyError "party_size")) ∧
    (∀ sz, s.party_size = some sz → s.date = none →
      handle_confirm_node s = Except.error (PyErr.keyError "date")) := by
  refine ⟨?_, ?_, ?_, ?_⟩
  · intro sz dv hp hd htr
    rw [Bool.and_eq_true] at htr
    simp [handle_confirm_node, getReq, bind_ok_eq, hp, hd, htr.1, htr.2]
  · intro sz dv hp hd hfa
    cases hA : pyTruthyInt sz with
    | false => simp [handle_confirm_node, getReq, bind_ok_eq, hp, hd, hA]
    | true =>
      cases hB : pyTruthyStr dv with
      | false => simp [handle_confirm_node, getReq, bind_ok_eq, hp, hd, hA, hB]
      | true =>
        rw [hA, hB] at hfa
        exact absurd hfa (by simp)
  · intro hp
    simp [handle_confirm_node, getReq, bind_error_eq, hp]
  · intro sz hp hd
    simp [handle_confirm_node, getReq, bind_ok_eq, bind_error_eq, hp, hd]

def c2wState : GraphState :=
  { freshSession with
    message := some "yes please confirm",
    booking_state := some "complete",
    party_size := some (some 4),
    date := some (some "saturday") }

theorem C2_confirm_amended_witness :
    handle_confirm_node c2wState = Except.ok { c2wState with
      booking_state := some "idle", date := some none, party_size := some none,
      response := some ("Your table for " ++ pyShowInt (some 4) ++ " on "
        ++ pyShow (some "saturday") ++ " is confirmed. We\x27ll see you then!"),
      last_question := some none } :=
  (C2_confirm_amended c2wState).1 (some 4) (some "saturday") rfl rfl (by decide)

/-- Claim C4 (failing input): a disambiguation turn whose stored candidate
list is empty, with the selector returning a value not in the list. -/
def c4Calls : TurnCalls :=
  { moderation := Call.fail, contradiction := Call.fail,
    intentCall := Call.ok ⟨"answer_clarification"⟩, fuzzyTime := Call.fail,
    slotSelection := Call.ok ⟨"saturday"⟩, partySize := Call.fail, qa := Call.fail }

def c4State : GraphState :=
  { freshSession with
    booking_state := some "awaiting_party_size",
    date := some (some "sunday"), date_candidates := some [],
    last_question := some (some "Great. How many people will be in your party on sunday?") }

/-- Claim C4: evaluating the turn at the failing input: in the state left by
a successful clarification (date_candidates cleared to the empty list), a
turn routed back to handle_clarification whose selector output is not in
the (empty) list reaches the re-prompt branch, whose candidates[-1] raises
IndexError; the error escapes the turn instead of resolving to the
documented static fallback. -/
theorem C4_empty_candidate_reprompt_raises :
    (runTurn c4Calls c4State "the second one").result =
      Except.error PyErr.indexError := by decide

/-- Claim C5: a start_booking turn in idle: zero resolver candidates lead to
awaiting_date with exactly the canned what-day question; one candidate is
stored as the resolved date and the state moves straight to
awaiting_party_size; two or more are stored as date_candidates and the
state moves to awaiting_clarification with the either/or prompt listing all
of them. -/
theorem C5_start_booking_candidate_branches (calls : TurnCalls) (s : GraphState)
    (m : String) (hm : s.message = some m) (_hidle : s.booking_state = some "idle") :
    (calls.fuzzyTime = Call.ok ⟨[]⟩ →
      handle_booking_node calls s = Except.ok { s with
        booking_state := some "awaiting_date",
        response := some "What day would you like to book for?",
        last_question := some (some "What day would you like to book for?") }) ∧
    (∀ d, calls.fuzzyTime = Call.ok ⟨[d]⟩ →
      handle_booking_node calls s = Except.ok { s with
        date := some (some d), booking_state := some "awaiting_party_size",
        response := some ("Great. How many people will be in your party on " ++ d ++ "?"),
        last_question := some (some ("Great. How many people will be in your party on "
          ++ d ++ "?")) }) ∧
    (∀ c1 c2 rest, calls.fuzzyTime = Call.ok ⟨c1 :: c2 :: rest⟩ →
      handle_booking_node calls s = Except.ok { s with
        date_candidates := some (c1 :: c2 :: rest),
        booking_state := some "awaiting_clarification",
        response := some ("Sure-just to confirm, do you mean "
          ++ clarifyOptionsD (c1 :: c2 :: rest) ++ "?"),
        last_question := some (some ("Sure-just to confirm, do you mean "
          ++ clarifyOptionsD (c1 :: c2 :: rest) ++ "?")) }) := by
  refine ⟨?_, ?_, ?_⟩
  · intro hf
    simp [handle_booking_node, getReq, hm, hf, bind_ok_eq]
  · intro d hf
    simp [handle_booking_node, getReq, hm, hf, bind_ok_eq]
  · intro c1 c2 rest hf
    simp [handle_booking_node, getReq, hm, hf, bind_ok_eq]

def c5Calls : TurnCalls :=
  { moderation := Call.fail, contradiction := Call.fail,
    intentCall := Call.ok ⟨"book_reservation"⟩,
    fuzzyTime := Call.ok ⟨["saturday", "sunday"]⟩,
    slotSelection := Call.fail, partySize := Call.fail, qa := Call.fail }

def c5State : GraphState :=
  { freshSession with
    message := some "book a table this weekend",
    booking_state := some "idle" }

theorem C5_start_booking_candidate_branches_witness :
    handle_booking_node c5Calls c5State = Except.ok { c5State with
      date_candidates := some ["saturday", "sunday"],
      booking_state := some "awaiting_clarification",
      response := some ("Sure-just to confirm, do you mean "
        ++ clarifyOptionsD ["saturday", "sunday"] ++ "?"),
      last_question := some (some ("Sure-just to confirm, do you mean "
        ++ clarifyOptionsD ["saturday", "sunday"] ++ "?")) } :=
  (C5_start_booking_candidate_branches c5Calls c5State "book a table this weekend"
    rfl rfl).2.2 "saturday" "sunday" [] rfl

/-- Claim C9 (failing input): a brand-new session key whose first message is
classified answer_clarification (the code label for provide_disambiguation). -/
def c9Calls : TurnCalls :=
  { moderation := Call.fail, contradiction := Call.fail,
    intentCall := Call.ok ⟨"answer_clarification"⟩, fuzzyTime := Call.fail,
    slotSelection := Call.ok ⟨"sunday"⟩, partySize := Call.fail, qa := Call.fail }

/-- Claim C9: evaluating the first turn of a new session key: no implicit
idle session is materialized (main.py constructs initial_state but never
passes it to the graph), so the first turn sees absent fields and
handle_clarification_node raises KeyError on date_candidates rather than
observing a defined idle session. -/
theorem C9_fresh_session_fields_absent :
    (runTurn c9Calls freshSession "sunday").result =
      Except.error (PyErr.keyError "date_candidates") := by decide

/-- Claim C3: for a message that passes the deterministic keyword check, a
failure of the external moderation call never blocks it: the gate resolves
to none (treats the message as clean) and the turn proceeds to the intent
classification node, provided the independent contradiction stage does not
substitute a response of its own and the session carries no stale block. -/
theorem C3_moderation_failure_fails_open (calls : TurnCalls) (s : GraphState)
    (m : String)
    (hkw : checkProfanityKeywords m = false)
    (hmod : calls.moderation = Call.fail)
    (hcontra : contradictionStage calls.contradiction = none)
    (herr : truthyGet s.error_message = false) :
    check_all_guardrails m calls.moderation calls.contradiction = none ∧
    (runTurn calls s m).ranIntent = true := by
  have hgate : check_all_guardrails m calls.moderation calls.contradiction = none := by
    simp [check_all_guardrails, hkw, hmod, hcontra]
  refine ⟨hgate, ?_⟩
  cases hic : calls.intentCall with
  | ok r =>
    simp [runTurn, check_guardrails_node, getReq, bind_ok_eq, hgate, herr,
      route_intent_node, route_logic, hic]
  | fail =>
    simp [runTurn, check_guardrails_node, getReq, bind_ok_eq, hgate, herr,
      route_intent_node, route_logic, hic]

def c3Calls : TurnCalls :=
  { moderation := Call.fail, contradiction := Call.fail,
    intentCall := Call.ok ⟨"book_reservation"⟩, fuzzyTime := Call.ok ⟨[]⟩,
    slotSelection := Call.fail, partySize := Call.fail, qa := Call.fail }

theorem C3_moderation_failure_fails_open_witness :
    check_all_guardrails "book a table" c3Calls.moderation c3Calls.contradiction
      = none ∧
    (runTurn c3Calls freshSession "book a table").ranIntent = true :=
  C3_moderation_failure_fails_open c3Calls freshSession "book a table"
    (by decide) (by decide) (by decide) (by decide)

/-- Claim C6: a turn classified ask_fact while booking_state is neither idle
nor complete answers the factual question, re-appends the stored
last_question after the resume text, clears the stored intent to None, and
leaves booking_state, date, date_candidates and party_size untouched (the
full final state is the prior state with only message, response and intent
changed). -/
theorem C6_ask_fact_resumes_booking (calls : TurnCalls) (s : GraphState)
    (m q bs : String)
    (hgate : check_all_guardrails m calls.moderation calls.contradiction = none)
    (herr : truthyGet s.error_message = false)
    (hintent : calls.intentCall = Call.ok ⟨"ask_fact"⟩)
    (hbs : s.booking_state = some bs) (h1 : bs ≠ "idle") (h2 : bs ≠ "complete")
    (hq : s.last_question = some (some q)) :
    (runTurn calls s m).result = Except.ok { s with
      message := some m,
      response := some (qaFact calls.qa ++ " Now, back to your reservation... " ++ q),
      intent := some none } := by
  simp [runTurn, check_guardrails_node, getReq, bind_ok_eq, hgate, herr,
    route_intent_node, hintent, route_logic, dispatch, handle_knowledge_node,
    hbs, h1, h2, hq, pyShow]

def c6Calls : TurnCalls :=
  { moderation := Call.fail, contradiction := Call.fail,
    intentCall := Call.ok ⟨"ask_fact"⟩, fuzzyTime := Call.fail,
    slotSelection := Call.fail, partySize := Call.fail, qa := Call.ok "Canberra." }

def c6State : GraphState :=
  { freshSession with
    booking_state := some "awaiting_party_size",
    date := some (some "saturday"),
    last_question := some (some "Great. How many people will be in your party on saturday?") }

theorem C6_ask_fact_resumes_booking_witness :
    (runTurn c6Calls c6State "what is the capital of Australia").result =
      Except.ok { c6State with
        message := some "what is the capital of Australia",
        response := some (qaFact c6Calls.qa ++ " Now, back to your reservation... "
          ++ "Great. How many people will be in your party on saturday?"),
        intent := some none } :=
  C6_ask_fact_resumes_booking c6Calls c6State "what is the capital of Australia"
    "Great. How many people will be in your party on saturday?" "awaiting_party_size"
    (by decide) (by decide) rfl rfl (by decide) (by decide) rfl

/-- Claim C7 (counterexample construction): turn 1 books with a single
resolver candidate (stores the resolved date), turn 2 restarts the booking
with two candidates (stores the candidate list without clearing the date). -/
def c7Calls1 : TurnCalls :=
  { moderation := Call.fail, contradiction := Call.fail,
    intentCall := Call.ok ⟨"book_reservation"⟩, fuzzyTime := Call.ok ⟨["saturday"]⟩,
    slotSelection := Call.fail, partySize := Call.fail, qa := Call.fail }

def c7Calls2 : TurnCalls :=
  { moderation := Call.fail, contradiction := Call.fail,
    intentCall := Call.ok ⟨"book_reservation"⟩,
    fuzzyTime := Call.ok ⟨["saturday", "sunday"]⟩,
    slotSelection := Call.fail, partySize := Call.fail, qa := Call.fail }

def c7Mid : GraphState :=
  match (runTurn c7Calls1 freshSession "book a table for saturday").result with
  | Except.ok t => t
  | Except.error _ => freshSession

def c7End : GraphState :=
  match (runTurn c7Calls2 c7Mid "actually book this weekend").result with
  | Except.ok t => t
  | Except.error _ => freshSession

/-- Claim C7 is false as stated: after two reachable turns from a fresh
session (book with one candidate, then restart the booking with two), the
resolved date and a non-empty candidate list are both set at once. -/
theorem C7_counterexample_both_slots_set :
    c7End.date = some (some "saturday") ∧
    c7End.date_candidates = some ["saturday", "sunday"] :=
  ⟨by decide, by decide⟩

/-- Claim C7 (amended): the clarification operation that stores a resolved
date does clear the candidate list, and the operation that stores date
candidates leaves the resolved date unchanged rather than guaranteed-unset;
the single-candidate date-storing operations do not clear an existing
candidate list, so the global mutual-exclusion invariant fails. -/
theorem C7_amended_exclusivity (calls : TurnCalls) (s : GraphState) (m : String)
    (hm : s.message = some m) :
    (∀ cs v, s.date_candidates = some cs → calls.slotSelection = Call.ok ⟨v⟩ →
      v ∈ cs →
      (handle_clarification_node calls s).toOption.map
        (fun t => (t.date_candidates, t.date)) = some (some [], some (some v))) ∧
    (∀ c1 c2 rest, calls.fuzzyTime = Call.ok ⟨c1 :: c2 :: rest⟩ →
      (handle_booking_node calls s).toOption.map (fun t => t.date) = some s.date) := by
  constructor
  · intro cs v hcs hsel hv
    simp [handle_clarification_node, getReq, bind_ok_eq, hm, hcs, hsel, hv,
      Except.toOption]
  · intro c1 c2 rest hf
    simp [handle_booking_node, getReq, bind_ok_eq, hm, hf, Except.toOption]

def c7wCalls : TurnCalls :=
  { moderation := Call.fail, contradiction := Call.fail,
    intentCall := Call.ok ⟨"answer_clarification"⟩, fuzzyTime := Call.fail,
    slotSelection := Call.ok ⟨"sunday"⟩, partySize := Call.fail, qa := Call.fail }

def c7wState : GraphState :=
  { freshSession with
    message := some "sunday",
    booking_state := some "awaiting_clarification",
    date_candidates := some ["saturday", "sunday"] }

theorem C7_amended_exclusivity_witness :
    (handle_clarification_node c7wCalls c7wState).toOption.map
      (fun t => (t.date_candidates, t.date)) =
      some (some [], some (some "sunday")) :=
  (C7_amended_exclusivity c7wCalls c7wState "sunday" rfl).1
    ["saturday", "sunday"] "sunday" rfl rfl (by decide)

/-- Claim C8 (counterexample input): a mid-booking state holding the
party-size prompt as last_question, with the router returning an unhandled
label so the turn runs handle_unknown_node. -/
def c8Calls : TurnCalls :=
  { moderation := Call.fail, contradiction := Call.fail,
    intentCall := Call.ok ⟨"gibberish"⟩, fuzzyTime := Call.fail,
    slotSelection := Call.fail, partySize := Call.fail, qa := Call.fail }

def c8State : GraphState :=
  { freshSession with
    booking_state := some "awaiting_party_size",
    date := some (some "saturday"),
    last_question := some (some "Great. How many people will be in your party on saturday?") }

/-- Claim C8 is false as stated: the unknown-handler turn emits the canned
did-not-understand prompt but leaves last_question holding the previous
party-size prompt, a text different from the response just emitted. -/
theorem C8_counterexample_stale_last_question :
    ((runTurn c8Calls c8State "qwerty asdf").result.toOption.map
      (fun t => (t.response, t.last_question))) =
      some (some UNKNOWN_MESSAGE,
        some (some "Great. How many people will be in your party on saturday?")) ∧
    some "Great. How many people will be in your party on saturday?"
      ≠ some UNKNOWN_MESSAGE :=
  ⟨by decide, by decide⟩

/-- Claim C8 (amended): last_question mirrors the emitted prompt on the
resolver-success branches of the booking node and on clarification success,
and is cleared to None on the confirm paths; but the unknown handler leaves
it unchanged (so it can hold a stale prompt different from the response
just emitted). -/
theorem C8_amended_last_question_updates (calls : TurnCalls) (s : GraphState)
    (m : String) (hm : s.message = some m) :
    (∀ cs, calls.fuzzyTime = Call.ok ⟨cs⟩ → ∀ t,
      handle_booking_node calls s = Except.ok t →
      t.last_question = t.response.map some) ∧
    (∀ cs v, s.date_candidates = some cs → calls.slotSelection = Call.ok ⟨v⟩ →
      v ∈ cs → ∀ t, handle_clarification_node calls s = Except.ok t →
      t.last_question = t.response.map some) ∧
    (∀ t, handle_confirm_node s = Except.ok t → t.last_question = some none) ∧
    (∀ t, handle_unknown_node s = Except.ok t → t.last_question = s.last_question) := by
  refine ⟨?_, ?_, ?_, ?_⟩
  · intro cs hf t ht
    match cs with
    | [] =>
      simp [handle_booking_node, getReq, bind_ok_eq, hm, hf] at ht
      subst ht; simp
    | [d] =>
      simp [handle_booking_node, getReq, bind_ok_eq, hm, hf] at ht
      subst ht; simp
    | c1 :: c2 :: rest =>
      simp [handle_booking_node, getReq, bind_ok_eq, hm, hf] at ht
      subst ht; simp
  · intro cs v hcs hsel hv t ht
    simp [handle_clarification_node, getReq, bind_ok_eq, hm, hcs, hsel, hv] at ht
    subst ht; simp
  · intro t ht
    cases hp : s.party_size with
    | none => simp [handle_confirm_node, getReq, bind_ok_eq, bind_error_eq, hp] at ht
    | some sz =>
      cases hd : s.date with
      | none => simp [handle_confirm_node, getReq, bind_ok_eq, bind_error_eq, hp, hd] at ht
      | some dv =>
        simp [handle_confirm_node, getReq, bind_ok_eq, hp, hd] at ht
        split at ht <;> (injection ht with ht; subst ht; rfl)
  · intro t ht
    simp [handle_unknown_node] at ht
    subst ht; simp

def c8wCalls : TurnCalls :=
  { moderation := Call.fail, contradiction := Call.fail,
    intentCall := Call.ok ⟨"book_reservation"⟩, fuzzyTime := Call.ok ⟨[]⟩,
    slotSelection := Call.fail, partySize := Call.fail, qa := Call.fail }

def c8wState : GraphState := { freshSession with message := some "book a table" }

def c8wOut : GraphState :=
  { c8wState with
    booking_state := some "awaiting_date",
    response := some "What day would you like to book for?",
    last_question := some (some "What day would you like to book for?") }

theorem C8_amended_last_question_updates_witness :
    c8wOut.last_question = c8wOut.response.map some :=
  (C8_amended_last_question_updates c8wCalls c8wState "book a table" rfl).1
    [] rfl c8wOut (by decide)

/-- One blocked turn: with a truthy error_message persisted in the session,
the turn writes only the new message, re-runs the gate, keeps a truthy
error_message (the gate either writes a new non-empty block message or
writes nothing, and no node ever clears the key) and exits through the
guardrail edge without running the intent classifier or any handler. -/
theorem blocked_turn_step (calls : TurnCalls) (s : GraphState) (m : String)
    (h : truthyGet s.error_message = true) :
    ∃ s2, runTurn calls s m = ⟨false, none, Except.ok s2⟩ ∧
      truthyGet s2.error_message = true := by
  cases hg : check_all_guardrails m calls.moderation calls.contradiction with
  | none =>
    refine ⟨{ s with message := some m }, ?_, ?_⟩
    · simp [runTurn, check_guardrails_node, getReq, bind_ok_eq, hg, h]
    · simpa using h
  | some e =>
    by_cases he : e = ""
    · subst he
      refine ⟨{ s with message := some m }, ?_, ?_⟩
      · simp [runTurn, check_guardrails_node, getReq, bind_ok_eq, hg, h]
      · simpa using h
    · refine ⟨{ s with
        message := some m, response := some e, error_message := some e }, ?_, ?_⟩
      · simp [runTurn, check_guardrails_node, getReq, bind_ok_eq, hg, he, truthyGet]
      · simp [truthyGet, he]

/-- Claim C10: once error_message holds a truthy block message, every
subsequent turn of that session (any messages, any call outcomes) exits
through the guardrail edge to final_response: the intent classifier never
runs and no handler node runs, for the whole remaining turn sequence. -/
theorem C10_blocked_session_stays_blocked (s : GraphState)
    (h : truthyGet s.error_message = true) (turns : List (String × TurnCalls)) :
    (runTurns turns s).all (fun r => !r.ranIntent && r.handler.isNone) = true := by
  induction turns generalizing s with
  | nil => simp [runTurns]
  | cons p rest ih =>
    obtain ⟨m, calls⟩ := p
    obtain ⟨s2, hstep, h2⟩ := blocked_turn_step calls s m h
    simp [runTurns, hstep, ih s2 h2]

def c10Calls : TurnCalls :=
  { moderation := Call.fail, contradiction := Call.fail,
    intentCall := Call.ok ⟨"book_reservation"⟩, fuzzyTime := Call.ok ⟨["friday"]⟩,
    slotSelection := Call.fail, partySize := Call.fail, qa := Call.fail }

def c10State : GraphState :=
  { freshSession with
    response := some RESPECT_MESSAGE,
    error_message := some RESPECT_MESSAGE }

theorem C10_blocked_session_stays_blocked_witness :
    truthyGet c10State.error_message = true ∧
    (runTurns [("book a table", c10Calls), ("hello there", c10Calls)] c10State).all
      (fun r => !r.ranIntent && r.handler.isNone) = true :=
  ⟨by decide, C10_blocked_session_stays_blocked c10State (by decide)
    [("book a table", c10Calls), ("hello there", c10Calls)]⟩

end ChatbotSpec
